import Mathlib

/-!
Verification of the `ech-workers` WebSocket↔TCP relay (src/_worker.js).

The source file contains four variants of the same Cloudflare worker,
separated by document markers; we call them V1 (lines 1–86, minimal),
V2 (lines 87–306, TextEncoder variant), V3 (lines 307–403, compact) and
V4 (lines 404–824, verbose variant with `isReading` guard).

JavaScript strings are modelled as lists of UTF-16 code units
(`JStr := List Nat`); byte arrays as `List Nat` with entries below 256.
-/

namespace EchWorkers

/-- A JavaScript string, as its list of UTF-16 code units. -/
abbrev JStr := List Nat

/-- Code units of a Lean string literal (all characters used in the
protocol tags are below U+10000, where `Char.toNat` equals the single
UTF-16 code unit). -/
def codes (s : String) : JStr := s.toList.map Char.toNat

/-- `str2b` (V1 line 29: `Uint8Array.from(s, c => c.charCodeAt(0))`,
V3 lines 349–353 and V4 `stringToBytes` lines 568–574:
`b[i] = s.charCodeAt(i) & 0xff`): each UTF-16 code unit reduced mod 256.
`Uint8Array` element assignment also truncates mod 256, so all three
sites compute the same function. -/
def str2b (s : JStr) : List Nat := s.map (fun c => c % 256)

/-- UTF-8 bytes of one Unicode scalar value. -/
def utf8EncodeScalar (c : Nat) : List Nat :=
  if c < 0x80 then [c]
  else if c < 0x800 then [0xC0 + c / 64, 0x80 + c % 64]
  else if c < 0x10000 then
    [0xE0 + c / 4096, 0x80 + (c / 64) % 64, 0x80 + c % 64]
  else
    [0xF0 + c / 262144, 0x80 + (c / 4096) % 64, 0x80 + (c / 64) % 64,
      0x80 + c % 64]

/-- `TextEncoder.prototype.encode` (used by V2, lines 93/240/279) over
UTF-16 code units: surrogate pairs are combined, lone surrogates become
U+FFFD, every other code unit is encoded as its scalar value. -/
def utf8Encode : JStr → List Nat
  | [] => []
  | [c] =>
    if 0xD800 ≤ c ∧ c < 0xE000 then utf8EncodeScalar 0xFFFD
    else utf8EncodeScalar c
  | c :: c2 :: rest2 =>
    if 0xD800 ≤ c ∧ c < 0xDC00 then
      if 0xDC00 ≤ c2 ∧ c2 < 0xE000 then
        utf8EncodeScalar (0x10000 + (c - 0xD800) * 1024 + (c2 - 0xDC00))
          ++ utf8Encode rest2
      else utf8EncodeScalar 0xFFFD ++ utf8Encode (c2 :: rest2)
    else if 0xDC00 ≤ c ∧ c < 0xE000 then
      utf8EncodeScalar 0xFFFD ++ utf8Encode (c2 :: rest2)
    else utf8EncodeScalar c ++ utf8Encode (c2 :: rest2)

/-! ## JavaScript string primitives used by the source -/

/-- `String.prototype.indexOf` for a single character (as code unit),
returning `none` for JavaScript's `-1`. -/
def indexOfFirst : JStr → Nat → Option Nat
  | [], _ => none
  | x :: xs, c => if x = c then some 0 else (indexOfFirst xs c).map (· + 1)

/-- `String.prototype.lastIndexOf` for a single character,
returning `none` for JavaScript's `-1`. -/
def lastIndexOf : JStr → Nat → Option Nat
  | [], _ => none
  | x :: xs, c =>
    match lastIndexOf xs c with
    | some i => some (i + 1)
    | none => if x = c then some 0 else none

/-- `String.prototype.split` with a single-character separator:
`"a|b|c".split('|') = ["a","b","c"]`, `"".split('|') = [""]`. -/
def jsSplit (sep : Nat) : JStr → List JStr
  | [] => [[]]
  | c :: rest =>
    match jsSplit sep rest with
    | s :: ss => if c = sep then [] :: s :: ss else (c :: s) :: ss
    | [] => if c = sep then [[], []] else [[c]]

/-- Does the second list start the first?  Recursion is on the sought
tag (first argument) so that a concrete tag reduces against a partially
symbolic string. -/
def startsWithAux : JStr → JStr → Bool
  | [], _ => true
  | _ :: _, [] => false
  | q :: qs, c :: cs => if c = q then startsWithAux qs cs else false

/-- `String.prototype.startsWith` (first argument: the string, second:
the prefix). -/
def startsWithL (s p : JStr) : Bool := startsWithAux p s

/-- ASCII decimal digit test. -/
def isDigit (c : Nat) : Bool := 48 ≤ c ∧ c ≤ 57

/-- Value of a nonempty all-digit string; `none` otherwise. -/
def allDigitsVal (s : JStr) : Option Nat :=
  if s ≠ [] ∧ s.all isDigit then
    some (s.foldl (fun acc c => acc * 10 + (c - 48)) 0)
  else none

/-- JavaScript whitespace (the ASCII part; the program never feeds
non-ASCII whitespace to a numeric conversion). -/
def isWS (c : Nat) : Bool := c = 32 ∨ c = 9 ∨ c = 10 ∨ c = 11 ∨ c = 12 ∨ c = 13

/-- `parseInt(s, 10)`: skip leading whitespace, optional sign, then the
longest decimal-digit prefix; `none` models `NaN` (no digits). -/
def jsParseInt (s : JStr) : Option Int :=
  let t := s.dropWhile isWS
  let signed : Bool × JStr :=
    match t with
    | 45 :: rest => (true, rest)
    | 43 :: rest => (false, rest)
    | _ => (false, t)
  match allDigitsVal (signed.2.takeWhile isDigit) with
  | none => none
  | some n => some (if signed.1 then -(n : Int) else (n : Int))

/-- JavaScript unary `+` (ToNumber) on a string, modelled for the forms
the program produces: whitespace-trimmed empty string gives `0`, an
optional-sign all-decimal-digit string gives its value, anything else
(including floats, hex and exponents, which never reach these sites)
gives `none` = `NaN`. -/
def jsPlusNum (s : JStr) : Option Int :=
  let t := (s.dropWhile isWS).reverse.dropWhile isWS |>.reverse
  if t = [] then some 0
  else
    match t with
    | 45 :: ds => (allDigitsVal ds).map (fun n => -(n : Int))
    | 43 :: ds => (allDigitsVal ds).map (fun n => (n : Int))
    | ds => (allDigitsVal ds).map (fun n => (n : Int))

/-! ## Address parsers -/

/-- `parseAddress` of V4 (`handleSession`, lines 542–566).  Bracketed
form: host between `[` and `]`, port `parseInt` of what follows `]:`
(unvalidated).  Unbracketed form: split at the last `:`; throws
(`none`) when there is no colon, or when the port is `NaN` or outside
`[1, 65535]`.  The port in the result is an `Option Int` because the
bracketed path can return a `NaN` port without throwing. -/
def parseAddressV4 (addr : JStr) : Option (JStr × Option Int) :=
  if addr.head? = some 91 then
    match indexOfFirst addr 93 with
    | none => none
    | some cb =>
      some ((addr.drop 1).take (cb - 1), jsParseInt (addr.drop (cb + 2)))
  else
    match lastIndexOf addr 58 with
    | none => none
    | some i =>
      match jsParseInt (addr.drop (i + 1)) with
      | none => none
      | some p =>
        if p < 1 ∨ p > 65535 then none else some (addr.take i, some p)

/-- `parseAddr` of V1 (lines 31–35) and V3 (lines 343–347): split at the
last colon, port is unary-plus of the suffix with no validation at all
(`none` in the port models `NaN`). -/
def parseAddr (a : JStr) : Option (JStr × Option Int) :=
  match lastIndexOf a 58 with
  | none => none
  | some i => some (a.take i, jsPlusNum (a.drop (i + 1)))

/-! ## Frames on the inbound (WebSocket) channel -/

/-- A frame the relay sends to the inbound channel: a tagged text frame
or a raw binary frame. -/
inductive WsOut
  | text (s : JStr)
  | bin (b : List Nat)
deriving DecidableEq, Repr

/-- Is this an `ERROR:`-tagged text frame? -/
def isErrorFrame : WsOut → Bool
  | WsOut.text s => startsWithL s (codes "ERROR:")
  | WsOut.bin _ => false

/-! ## Outbound connector -/

/-- Fallback resolution of V3 (`tryConn`, lines 355–367): a fallback
entry containing `:` is split, its first segment is the host and unary
plus of its second segment is the port unless that is falsy (`NaN` or
`0`), in which case the target's port is used; an entry without `:` is
the host with the target's port; no entry (`null`, the direct attempt)
leaves the target pair unchanged. -/
def resolveV3 (h : JStr) (p : Option Int) : Option JStr → JStr × Option Int
  | none => (h, p)
  | some fb =>
    if 58 ∈ fb then
      let segs := jsSplit 58 fb
      let ip := segs.headD []
      let cp := (segs.get? 1).getD []
      match jsPlusNum cp with
      | none => (ip, p)
      | some v => if v = 0 then (ip, p) else (ip, some v)
    else (fb, p)

/-- Host/port selection of V4 (`tryConnect`, lines 599–614):
`targetHost = fallbackIP || host`, and the port is always the target's
port — the fallback entry is used verbatim as the hostname, never
parsed for a port of its own. -/
def tryConnectHostPortV4 (host : JStr) (port : Option Int) :
    Option JStr → JStr × Option Int
  | none => (host, port)
  | some fb => (if fb = [] then host else fb, port)

/-- The ordered attempt sequence of V3's `conn` (lines 369–384): the
direct target first, then each configured fallback in list order, each
resolved by `resolveV3`. -/
def connAttemptsV3 (h : JStr) (p : Option Int) (fbs : List JStr) :
    List (JStr × Option Int) :=
  (none :: fbs.map some).map (resolveV3 h p)

/-- The retry loop shared by V1 (lines 56–66) and V3 (lines 372–382):
try each attempt in order against the success oracle `ok`; stop at the
first success.  Returns the attempts actually dialled and the
successful one, if any. -/
def tryList (ok : JStr × Option Int → Bool) :
    List (JStr × Option Int) → List (JStr × Option Int) × Option (JStr × Option Int)
  | [] => ([], none)
  | t :: rest =>
    if ok t then ([t], some t)
    else
      let r := tryList ok rest
      (t :: r.1, r.2)

/-- V3's `conn` as attempt order plus first-success retry. -/
def connV3run (h : JStr) (p : Option Int) (fbs : List JStr)
    (ok : JStr × Option Int → Bool) :
    List (JStr × Option Int) × Option (JStr × Option Int) :=
  tryList ok (connAttemptsV3 h p fbs)

/-- V1's `conn` loop (lines 54–68), projected onto the frames it sends
to the inbound channel and whether it runs `close()`: a successful
attempt sends `CONNECTED` and returns; exhausting every attempt runs
`close()` without sending any frame. -/
def connRunV1 : List (JStr × Option Int) → (JStr × Option Int → Bool) →
    List WsOut × Bool
  | [], _ => ([], true)
  | a :: rest, ok =>
    if ok a then ([WsOut.text (codes "CONNECTED")], false)
    else connRunV1 rest ok

/-- Outcome of one dial attempt in V4's `connectToRemote`: success, or
an error with message `m` and a flag telling whether
`isCloudflareLimitError` accepts it. -/
inductive AttemptV4
  | ok
  | err (m : JStr) (cf : Bool)
deriving DecidableEq, Repr

/-- The retry loop of V4's `connectToRemote` (lines 629–719) with the
running `lastError`: on an error the catch block stores it, continues
to the next attempt when it is a Cloudflare-limit error and attempts
remain, throws `lastError` at the final index, and otherwise falls
through to the next loop iteration; line 719 throws `lastError` should
the loop ever exit. -/
def connectLoopV4 : List AttemptV4 → Option JStr → Except JStr Unit
  | [], lastError => Except.error (lastError.getD (codes "所有连接尝试均失败"))
  | a :: rest, _ =>
    match a with
    | AttemptV4.ok => Except.ok ()
    | AttemptV4.err m cf =>
      if cf ∧ rest ≠ [] then connectLoopV4 rest (some m)
      else if rest = [] then Except.error m
      else connectLoopV4 rest (some m)

/-- V4's CONNECT path as seen by the inbound channel (message handler
lines 744–750 around `connectToRemote`): on success `CONNECTED` is sent
(when the channel is open, via `sendWebSocketMessage`); on a thrown
error the handler sends `ERROR:连接目标失败: ` plus the message and runs
`cleanup()`.  Returns the frames sent and whether cleanup ran. -/
def connectPathV4 (attempts : List AttemptV4) (wsOpen : Bool) :
    List WsOut × Bool :=
  match connectLoopV4 attempts none with
  | Except.ok _ => ((if wsOpen then [WsOut.text (codes "CONNECTED")] else []), false)
  | Except.error m =>
    ((if wsOpen then [WsOut.text (codes "ERROR:连接目标失败: " ++ m)] else []), true)

/-! ## CONNECT-frame decoding (the part after the 8-character tag) -/

/-- V1's CONNECT branch (lines 73–75):
`const [addr, data] = d.slice(8).split('|'); addr && await conn(addr, data)`.
`some (addr, data)` means `conn` is invoked — an outbound connection
attempt is started — with that address and optional first payload;
`none` means it is not. -/
def connectBranchV1 (rest : JStr) : Option (JStr × Option JStr) :=
  let segs := jsSplit 124 rest
  let addr := segs.headD []
  let dat := segs.get? 1
  if addr = [] then none else some (addr, dat)

/-- V3's CONNECT branch (lines 389–392): index of the first `|`; when
absent the handler returns without doing anything; otherwise `conn` is
invoked with the slices before and after it. -/
def connectBranchV3 (x : JStr) : Option (JStr × JStr) :=
  match indexOfFirst x 124 with
  | none => none
  | some i => some (x.take i, x.drop (i + 1))

/-- V4's CONNECT branch (lines 731–745): when no `|` is found the
handler sends an `ERROR:` frame and returns with no connection attempt;
otherwise `connectToRemote` is invoked on the two slices.  First
component: the attempt started, if any; second: the frames sent. -/
def connectBranchV4 (content : JStr) : Option (JStr × JStr) × List WsOut :=
  match indexOfFirst content 124 with
  | none => (none, [WsOut.text (codes "ERROR:无效的 CONNECT 消息格式")])
  | some i => (some (content.take i, content.drop (i + 1)), [])

/-! ## Relay pump -/

/-- One result of `reader.read()`: end-of-stream or a chunk of bytes. -/
inductive ReadRes
  | done
  | chunk (b : List Nat)
deriving DecidableEq, Repr

/-- A pump trace: each `reader.read()` result paired with whether the
inbound WebSocket is open (`readyState === 1`) at that iteration. -/
abbrev PumpTrace := List (ReadRes × Bool)

/-- V4's `pumpRemoteToWebSocket` loop body (lines 512–530), run over a
trace: end-of-stream sends `CLOSE` (only if the channel is open, via
`sendWebSocketMessage`) and runs `cleanup()`; a nonempty chunk is
forwarded when the channel is open and ends the loop otherwise; an
empty chunk is skipped and the loop continues.  Returns the frames sent
and whether cleanup was triggered. -/
def pumpV4 : PumpTrace → List WsOut × Bool
  | [] => ([], false)
  | (ReadRes.done, w) :: _ =>
    ((if w then [WsOut.text (codes "CLOSE")] else []), true)
  | (ReadRes.chunk b, w) :: rest =>
    if b.length > 0 then
      if w then
        let r := pumpV4 rest
        (WsOut.bin b :: r.1, r.2)
      else ([], false)
    else pumpV4 rest

/-- V3's `pump` loop body (lines 333–342): end-of-stream sends `CLOSE`
(via the readyState-checking `send` helper) and runs `close()`; a chunk
is forwarded when it is nonempty and the channel is open, and otherwise
the loop breaks — a zero-length chunk terminates the loop. -/
def pumpV3 : PumpTrace → List WsOut × Bool
  | [] => ([], false)
  | (ReadRes.done, w) :: _ =>
    ((if w then [WsOut.text (codes "CLOSE")] else []), true)
  | (ReadRes.chunk b, w) :: rest =>
    if b.length ≠ 0 ∧ w then
      let r := pumpV3 rest
      (WsOut.bin b :: r.1, r.2)
    else ([], false)

/-- V1's `pump` loop body (lines 44–52): end-of-stream sends `CLOSE`
unconditionally and runs `close()`; otherwise
`value && ws.readyState === 1 && ws.send(value)` — a `Uint8Array` is
always truthy, so even a zero-length chunk is sent when the channel is
open, and the loop always continues. -/
def pumpV1 : PumpTrace → List WsOut × Bool
  | [] => ([], false)
  | (ReadRes.done, _) :: _ => ([WsOut.text (codes "CLOSE")], true)
  | (ReadRes.chunk b, w) :: rest =>
    let r := pumpV1 rest
    (if w then WsOut.bin b :: r.1 else r.1, r.2)

/-- V4's guarded pump entry (lines 501–507): when the `isReading` flag
is already set the call returns at once — no read, no frame, no
cleanup, flag unchanged; otherwise the loop runs with the flag set and
clears it in `finally`.  Result: frames sent, cleanup triggered, final
`isReading`. -/
def pumpGuardedV4 (isReading : Bool) (trace : PumpTrace) :
    List WsOut × Bool × Bool :=
  if isReading then ([], false, true)
  else
    let r := pumpV4 trace
    (r.1, r.2, false)

/-! ## Teardown -/

/-- One release step of the teardown routine. -/
inductive TDStep
  | releaseWriter
  | releaseReader
  | closeSocket
  | closeWS
deriving DecidableEq, Repr

/-- The session resources teardown acts on: the check-and-set `closed`
flag, which outbound handles are held, and whether the inbound
WebSocket is still open. -/
structure TDState where
  closed : Bool
  hasW : Bool
  hasR : Bool
  hasSock : Bool
  wsOpen : Bool
deriving DecidableEq, Repr

/-- V4's `cleanup` (lines 479–499): after the check-and-set on
`isClosed`, each held resource is released inside its own `try`/ignore
block — a throwing release is swallowed, so every present resource is
attempted regardless of the failure oracle `fails`, and the handles are
nulled; finally `safeCloseWebSocket` closes the inbound channel only if
it is still open/closing.  Returns the new state and the steps
attempted, in order.  (V2 lines 139–149 and V3 lines 325–332 are the
same routine.) -/
def cleanupV4 (_fails : TDStep → Bool) (t : TDState) : TDState × List TDStep :=
  if t.closed then (t, [])
  else
    ({ closed := true, hasW := false, hasR := false, hasSock := false,
       wsOpen := false },
     (if t.hasW then [TDStep.releaseWriter] else [])
       ++ (if t.hasR then [TDStep.releaseReader] else [])
       ++ (if t.hasSock then [TDStep.closeSocket] else [])
       ++ (if t.wsOpen then [TDStep.closeWS] else []))

/-- V1's `close` (lines 20–27): the same check-and-set on `closed`, but
the release steps are not individually guarded — when a step throws
(`fails` that step) the exception propagates and the remaining steps
never run.  Returns the new state and the steps attempted (the failing
step included), in order. -/
def closeV1 (fails : TDStep → Bool) (t : TDState) : TDState × List TDStep :=
  if t.closed then (t, [])
  else
    let t1 : TDState := { t with closed := true }
    if t.hasW ∧ fails TDStep.releaseWriter then (t1, [TDStep.releaseWriter])
    else
      let l1 := if t.hasW then [TDStep.releaseWriter] else []
      if t.hasR ∧ fails TDStep.releaseReader then
        (t1, l1 ++ [TDStep.releaseReader])
      else
        let l2 := l1 ++ (if t.hasR then [TDStep.releaseReader] else [])
        if t.hasSock ∧ fails TDStep.closeSocket then
          (t1, l2 ++ [TDStep.closeSocket])
        else
          let l3 := l2 ++ (if t.hasSock then [TDStep.closeSocket] else [])
          if t.wsOpen ∧ fails TDStep.closeWS then (t1, l3 ++ [TDStep.closeWS])
          else
            ({ t1 with wsOpen := false },
             l3 ++ (if t.wsOpen then [TDStep.closeWS] else []))

/-! ## Per-session message handling -/

/-- An inbound WebSocket message: text or binary. -/
inductive Msg
  | str (s : JStr)
  | bin (b : List Nat)
deriving DecidableEq, Repr

/-- Observable state of a V1 session (`handle`, lines 17–86): whether a
remote writer is held (`rW`), the `closed` flag, the bytes written to
the outbound channel, the frames sent to the inbound channel, the
number of outbound sockets opened and not yet closed, and the number of
pump loops started.  Writes after teardown would throw on the released
writer; theorems about the handler therefore assume `closed = false`. -/
structure SessV1 where
  rW : Bool
  closed : Bool
  written : List Nat
  sent : List WsOut
  socks : Nat
  pumpStarts : Nat
deriving DecidableEq, Repr

/-- V1's `conn` (lines 54–68) on a session, with the dial outcome
abstracted by `connOk` (whether some attempt in the retry loop
succeeds; the loop itself is modelled by `connRunV1`/`tryList`): a bad
address throws out of the handler with no session change; success
stores the new socket without closing any previous one, writes the
first payload when nonempty, sends `CONNECTED` and starts the pump;
exhaustion runs `close()`. -/
def connStepV1 (connOk : Bool) (addr : JStr) (dat : Option JStr)
    (s : SessV1) : SessV1 :=
  match parseAddr addr with
  | none => s
  | some _ =>
    if connOk then
      { s with rW := true,
               socks := s.socks + 1,
               pumpStarts := s.pumpStarts + 1,
               written := s.written ++
                 (match dat with
                  | some d => if d = [] then [] else str2b d
                  | none => []),
               sent := s.sent ++ [WsOut.text (codes "CONNECTED")] }
    else
      { s with closed := true,
               socks := s.socks - (if s.rW then 1 else 0) }

/-- V1's message handler (lines 70–82).  There is no `isClosed` check
at entry.  `CONNECT:` frames go through `connectBranchV1` and `conn`;
`DATA:` frames are written through `str2b` only when a writer is held;
the literal `CLOSE` runs `close()` (which closes the held socket);
binary frames are written verbatim when a writer is held. -/
def stepV1 (connOk : Bool) (s : SessV1) : Msg → SessV1
  | Msg.str d =>
    if startsWithL d (codes "CONNECT:") then
      match connectBranchV1 (d.drop 8) with
      | some (addr, dat) => connStepV1 connOk addr dat s
      | none => s
    else if startsWithL d (codes "DATA:") then
      if s.rW then { s with written := s.written ++ str2b (d.drop 5) } else s
    else if d = codes "CLOSE" then
      if s.closed then s
      else { s with closed := true,
                    socks := s.socks - (if s.rW then 1 else 0) }
    else s
  | Msg.bin b =>
    if s.rW then { s with written := s.written ++ b } else s

/-- Observable state of a V4 session (`handleSession`, lines 472–801);
fields as in `SessV1` plus the pump's `isReading` flag. -/
structure SessV4 where
  rW : Bool
  closed : Bool
  written : List Nat
  sent : List WsOut
  socks : Nat
  pumpStarts : Nat
  isReading : Bool
deriving DecidableEq, Repr

/-- V4's message handler (lines 723–791), with the dial outcome
abstracted by `connOk`.  Frames arriving on a closed session are
ignored (line 724).  A `CONNECT:` frame without `|` is answered with an
`ERROR:` frame and nothing else; a bad address or failed dial sends
`ERROR:连接目标失败: …` and runs `cleanup()`; success stores the socket,
sends `CONNECTED` and starts the pump through the `isReading` guard.
`DATA:` and binary frames are written only when a writer is held
(write failures are not modelled; theorems assume `closed = false`
where it matters). -/
def stepV4 (connOk : Bool) (s : SessV4) : Msg → SessV4
  | Msg.str d =>
    if s.closed then s
    else if startsWithL d (codes "CONNECT:") then
      match connectBranchV4 (d.drop 8) with
      | (none, errFrames) => { s with sent := s.sent ++ errFrames }
      | (some (addr, dat), _) =>
        if (parseAddressV4 addr).isSome ∧ connOk then
          { s with rW := true,
                   socks := s.socks + 1,
                   pumpStarts := s.pumpStarts + (if s.isReading then 0 else 1),
                   isReading := true,
                   written := s.written ++ (if dat = [] then [] else str2b dat),
                   sent := s.sent ++ [WsOut.text (codes "CONNECTED")] }
        else
          { s with closed := true,
                   socks := s.socks - (if s.rW then 1 else 0),
                   sent := s.sent ++ [WsOut.text (codes "ERROR:连接目标失败: ")] }
    else if startsWithL d (codes "DATA:") then
      if s.rW then { s with written := s.written ++ str2b (d.drop 5) } else s
    else if d = codes "CLOSE" then
      { s with closed := true,
               rW := false,
               socks := s.socks - (if s.rW then 1 else 0) }
    else s
  | Msg.bin b =>
    if s.closed then s
    else if s.rW then { s with written := s.written ++ b } else s

/-- Tags a frame of the inbound byte traffic: a `DATA:` text payload
(left) or a binary frame (right). -/
def dataMsg : JStr ⊕ List Nat → Msg
  | Sum.inl p => Msg.str (codes "DATA:" ++ p)
  | Sum.inr b => Msg.bin b

/-- The bytes such a frame contributes to the outbound channel. -/
def dataBytes : JStr ⊕ List Nat → List Nat
  | Sum.inl p => str2b p
  | Sum.inr b => b

/-! ## Helper lemmas -/

lemma jsSplit_ne_nil (sep : Nat) (s : JStr) : jsSplit sep s ≠ [] := by
  cases s with
  | nil => simp [jsSplit]
  | cons c t =>
    unfold jsSplit
    cases h : jsSplit sep t <;> dsimp <;> split <;> simp

lemma jsSplit_no_sep {sep : Nat} {s : JStr} (h : sep ∉ s) : jsSplit sep s = [s] := by
  induction s with
  | nil => rfl
  | cons c t ih =>
    rw [List.mem_cons, not_or] at h
    unfold jsSplit
    rw [ih h.2]
    simp [Ne.symm h.1]

lemma jsSplit_append {sep : Nat} {a : JStr} (b : JStr) (h : sep ∉ a) :
    jsSplit sep (a ++ sep :: b) = a :: jsSplit sep b := by
  induction a with
  | nil =>
    show jsSplit sep (sep :: b) = [] :: jsSplit sep b
    conv_lhs => unfold jsSplit
    cases hb : jsSplit sep b with
    | nil => exact absurd hb (jsSplit_ne_nil sep b)
    | cons x xs => simp [hb]
  | cons c t ih =>
    rw [List.mem_cons, not_or] at h
    show jsSplit sep (c :: (t ++ sep :: b)) = _
    conv_lhs => unfold jsSplit
    rw [ih h.2]
    simp [Ne.symm h.1]

/-- `str2b` meets the byte-per-code-unit contract: same length, each
byte the code unit mod 256 (out-of-range indices give the default on
both sides). -/
lemma str2b_spec (s : JStr) :
    (str2b s).length = s.length ∧
    ∀ i, (str2b s).getD i 0 = (s.getD i 0) % 256 := by
  refine ⟨List.length_map s _, fun i => ?_⟩
  induction s generalizing i with
  | nil => simp [str2b]
  | cons a t ih =>
    cases i with
    | zero => simp [str2b]
    | succ n => simpa [str2b] using ih n

/-- The retry loop stops at the first success: the result is `find?` of
the oracle, and the attempts dialled are exactly the failing prefix
followed by the first success (when there is one). -/
lemma tryList_spec (ok : JStr × Option Int → Bool)
    (l : List (JStr × Option Int)) :
    (tryList ok l).2 = l.find? ok ∧
    (tryList ok l).1
      = l.takeWhile (fun t => !ok t) ++ (l.find? ok).toList := by
  induction l with
  | nil => simp [tryList]
  | cons a rest ih =>
    by_cases h : ok a
    · simp [tryList, h, List.find?, List.takeWhile]
    · have h' : ok a = false := by simpa using h
      simp [tryList, h', List.find?, List.takeWhile, ih.1, ih.2]

lemma connectLoopV4_all_err :
    ∀ (errs : List (JStr × Bool)) (h : errs ≠ []) (le : Option JStr),
      connectLoopV4 (errs.map (fun e => AttemptV4.err e.1 e.2)) le
        = Except.error (errs.getLast h).1
  | [], h, _ => absurd rfl h
  | [e], _, le => by simp [connectLoopV4]
  | e :: e' :: tl, _, le => by
    rw [List.getLast_cons (by simp)]
    have hrec := connectLoopV4_all_err (e' :: tl) (by simp) (some e.1)
    show connectLoopV4
        (AttemptV4.err e.1 e.2 :: (e' :: tl).map (fun e => AttemptV4.err e.1 e.2)) le = _
    unfold connectLoopV4
    by_cases hcf : e.2 = true <;> simp [hcf] <;> simpa using hrec

/-! ## Claims -/

/-- **C1.**  The claim holds of `str2b`/`stringToBytes` (V1, V3, V4):
the encoded bytes have the payload's UTF-16 length and each byte is the
corresponding code unit mod 256.  V2's `DATA:`/first-frame path instead
uses `TextEncoder` (UTF-8): on the one-code-unit payload `"ÿ"` (U+00FF)
it produces the two bytes `[195, 191]` where the protocol's encoding
produces the single byte `[255]` — V2 corrupts non-ASCII (hence any
binary) payloads, a code bug against the byte-transparent channel the
other three variants and the spec define. -/
theorem c1_byte_encoding :
    (∀ s : JStr, (str2b s).length = s.length ∧
      ∀ i, (str2b s).getD i 0 = (s.getD i 0) % 256) ∧
    str2b (codes "ÿ") = [255] ∧
    utf8Encode (codes "ÿ") = [195, 191] ∧
    utf8Encode (codes "ÿ") ≠ str2b (codes "ÿ") :=
  ⟨str2b_spec, by decide, by decide, by decide⟩

/-- The claim's notion of a valid integer string: optional sign, then
one or more decimal digits and nothing else (stated from the spec's
words, for comparison with the code's `parseInt`). -/
def specValidInteger (s : JStr) : Bool :=
  match s with
  | 45 :: ds => ds ≠ [] ∧ ds.all isDigit
  | 43 :: ds => ds ≠ [] ∧ ds.all isDigit
  | ds => ds ≠ [] ∧ ds.all isDigit

/-- **C2, counterexample.**  On `"h:12abc"` the substring after the
separator is not a valid integer, so the claim demands
`MalformedAddress`; V4's `parseAddress` instead succeeds with port 12,
because `parseInt` keeps the longest digit prefix. -/
theorem c2_counterexample :
    parseAddressV4 (codes "h:12abc") = some (codes "h", some 12) ∧
    specValidInteger (codes "12abc") = false := by decide

/-- **C2, amended.**  For unbracketed inputs, V4's `parseAddress`
returns host = text before the last colon and port = `parseInt` of the
text after it, and fails exactly when there is no colon, `parseInt`
gives `NaN` (no leading digits after optional sign), or the value is
outside `[1, 65535]`; a suffix whose digit prefix is a valid port is
accepted even with trailing garbage.  (Bracketed `[…]` inputs skip port
validation entirely, and the V1/V3 and V2 parsers validate nothing.) -/
theorem c2_parse_address (addr : JStr) (hnb : addr.head? ≠ some 91) :
    (lastIndexOf addr 58 = none → parseAddressV4 addr = none) ∧
    (∀ i, lastIndexOf addr 58 = some i →
      (jsParseInt (addr.drop (i + 1)) = none → parseAddressV4 addr = none) ∧
      ∀ p : Int, jsParseInt (addr.drop (i + 1)) = some p →
        ((p < 1 ∨ p > 65535) → parseAddressV4 addr = none) ∧
        (1 ≤ p → p ≤ 65535 →
          parseAddressV4 addr = some (addr.take i, some p))) := by
  unfold parseAddressV4
  rw [if_neg hnb]
  refine ⟨fun h => by rw [h], fun i hi => ?_⟩
  rw [hi]; dsimp only
  refine ⟨fun h => by rw [h], fun p hp => ?_⟩
  rw [hp]; dsimp only
  refine ⟨fun hrange => by rw [if_pos hrange], fun h1 h2 => ?_⟩
  rw [if_neg (by push_neg; exact ⟨by omega, by omega⟩)]

/-- **C2, witness.**  `"example.com:443"` parses to host
`"example.com"`, port 443, through `c2_parse_address`. -/
theorem c2_witness :
    parseAddressV4 (codes "example.com:443") = some (codes "example.com", some 443) := by
  have h := ((c2_parse_address (codes "example.com:443")
      (by decide)).2 11 (by decide)).2 443 (by decide) |>.2
    (by decide) (by decide)
  simpa using h

/-- **C3, counterexample.**  V4's `tryConnect` does not parse the
fallback entry: the entry `"9.9.9.9:81"` is used verbatim as the
hostname and the port stays the target's 443, where the claim demands
host `"9.9.9.9"` and the entry's own port 81. -/
theorem c3_counterexample :
    tryConnectHostPortV4 (codes "example.com") (some 443)
        (some (codes "9.9.9.9:81")) = (codes "9.9.9.9:81", some 443) ∧
    (tryConnectHostPortV4 (codes "example.com") (some 443)
        (some (codes "9.9.9.9:81"))).1 ≠ codes "9.9.9.9" ∧
    (tryConnectHostPortV4 (codes "example.com") (some 443)
        (some (codes "9.9.9.9:81"))).2 ≠ some 81 := by decide

/-- **C3, amended.**  In V3 (`tryConn`/`conn`) the claim holds: the
attempt sequence is the direct target followed by the fallbacks in list
order; a fallback without a colon keeps the target's port, one of the
form `host:port` with a nonzero numeric port uses its own host and
port; and the loop dials the failing prefix, stops at the first
success and returns it, making no further attempts.  (V4's `tryConnect`
instead uses the fallback string verbatim as hostname with the target's
port — see the counterexample — and V1 would produce a `NaN` port for a
fallback without a colon.) -/
theorem c3_connect_order (h : JStr) (p : Option Int) (fbs : List JStr)
    (ok : JStr × Option Int → Bool) :
    connAttemptsV3 h p fbs
      = (h, p) :: fbs.map (fun fb => resolveV3 h p (some fb)) ∧
    (∀ fb : JStr, (58 : Nat) ∉ fb → resolveV3 h p (some fb) = (fb, p)) ∧
    (∀ (fbh cp : JStr) (v : Int), (58 : Nat) ∉ fbh → (58 : Nat) ∉ cp →
      jsPlusNum cp = some v → v ≠ 0 →
      resolveV3 h p (some (fbh ++ 58 :: cp)) = (fbh, some v)) ∧
    (connV3run h p fbs ok).2 = (connAttemptsV3 h p fbs).find? ok ∧
    (connV3run h p fbs ok).1
      = (connAttemptsV3 h p fbs).takeWhile (fun t => !ok t)
          ++ ((connAttemptsV3 h p fbs).find? ok).toList := by
  refine ⟨by simp [connAttemptsV3, resolveV3], fun fb hfb => ?_,
    fun fbh cp v h1 h2 h3 h4 => ?_, (tryList_spec ok _).1, (tryList_spec ok _).2⟩
  · simp [resolveV3, hfb]
  · have hm : (58 : Nat) ∈ fbh ++ 58 :: cp := by simp
    simp [resolveV3, hm, jsSplit_append cp h1, jsSplit_no_sep h2, h3, h4]

/-- **C3, witness.**  The fallback `"9.9.9.9:81"` resolves to host
`"9.9.9.9"` and port 81 under V3's resolution. -/
theorem c3_witness :
    resolveV3 (codes "h") (some 443) (some (codes "9.9.9.9" ++ 58 :: codes "81"))
      = (codes "9.9.9.9", some 81) :=
  (c3_connect_order (codes "h") (some 443) [] (fun _ => true)).2.2.1
    (codes "9.9.9.9") (codes "81") 81 (by decide) (by decide) (by decide)
    (by decide)

/-- **C4, counterexample.**  When every attempt fails, V1's `conn`
(lines 54–68) runs `close()` without sending any frame: the inbound
channel, still open until that close, never receives an `ERROR:`
frame, contrary to the claim. -/
theorem c4_counterexample :
    connRunV1 [(codes "h", some 443), (codes "210.61.97.241", some 81)]
        (fun _ => false) = ([], true) ∧
    ((connRunV1 [(codes "h", some 443), (codes "210.61.97.241", some 81)]
        (fun _ => false)).1.all fun fr => !isErrorFrame fr) = true := by decide

/-- **C4, amended.**  In V4 the claim holds: when the direct attempt
and every fallback attempt fail, `connectToRemote` throws the last
underlying error, and the message handler sends an
`ERROR:连接目标失败: …` frame carrying it to the (still open) inbound
channel and runs `cleanup()`.  V1 and V3 instead close the session
silently on exhaustion. -/
theorem c4_connect_failed (errs : List (JStr × Bool)) (h : errs ≠ []) :
    connectLoopV4 (errs.map (fun e => AttemptV4.err e.1 e.2)) none
      = Except.error (errs.getLast h).1 ∧
    connectPathV4 (errs.map (fun e => AttemptV4.err e.1 e.2)) true
      = ([WsOut.text (codes "ERROR:连接目标失败: " ++ (errs.getLast h).1)],
         true) := by
  have h1 := connectLoopV4_all_err errs h none
  refine ⟨h1, ?_⟩
  unfold connectPathV4
  rw [h1]
  simp

/-- **C4, witness.**  Two failing attempts: the error of the second is
reported in the `ERROR:` frame and cleanup runs. -/
theorem c4_witness :
    connectPathV4 [AttemptV4.err (codes "e1") false, AttemptV4.err (codes "e2") true]
        true
      = ([WsOut.text (codes "ERROR:连接目标失败: " ++ codes "e2")], true) := by
  have h := (c4_connect_failed [(codes "e1", false), (codes "e2", true)]
      (by decide)).2
  simpa using h

/-- **C5, counterexample.**  On `CONNECT:h:1` (no `|`), V1's handler
destructures `split('|')` into address `"h:1"` and `undefined` payload
and, the address being nonempty, invokes `conn` — an outbound
connection attempt is started (`parseAddr` accepts the address and the
dial loop runs), and no malformed-frame outcome is produced, contrary
to the claim.  (V2 likewise proceeds, on mangled substrings, because it
never checks `indexOf` for `-1`.) -/
theorem c5_counterexample :
    connectBranchV1 (codes "h:1") = some (codes "h:1", none) ∧
    parseAddr (codes "h:1") = some (codes "h", some 1) := by decide

/-- **C5, amended.**  In V3 and V4 the claim holds: a `CONNECT:` text
frame whose remainder contains no `|` starts no outbound connection —
V3 returns silently, V4 sends an `ERROR:` frame and returns.  In V1
(and V2) the handler instead proceeds to dial. -/
theorem c5_no_pipe (x : JStr) (hp : indexOfFirst x 124 = none) :
    connectBranchV3 x = none ∧
    (connectBranchV4 x).1 = none ∧
    (connectBranchV4 x).2
      = [WsOut.text (codes "ERROR:无效的 CONNECT 消息格式")] := by
  refine ⟨?_, ?_, ?_⟩ <;> simp [connectBranchV3, connectBranchV4, hp]

/-- **C5, witness.**  `"example.com:443"` contains no `|`: neither V3
nor V4 starts an attempt. -/
theorem c5_witness :
    connectBranchV3 (codes "example.com:443") = none ∧
    (connectBranchV4 (codes "example.com:443")).1 = none :=
  ⟨(c5_no_pipe (codes "example.com:443") (by decide)).1,
   (c5_no_pipe (codes "example.com:443") (by decide)).2.1⟩

/-- **C6, counterexample.**  V1's `close` (lines 20–27) has no
per-step guards: on a fresh session whose writer-release throws, only
that step is attempted — the reader release, the socket close and the
WebSocket close never run, contrary to the claim's independent
guarding (the `closed` flag is still set, so idempotence survives). -/
theorem c6_counterexample :
    (closeV1 (fun st => decide (st = TDStep.releaseWriter))
        ⟨false, true, true, true, true⟩).2 = [TDStep.releaseWriter] ∧
    TDStep.closeSocket ∉
      (closeV1 (fun st => decide (st = TDStep.releaseWriter))
        ⟨false, true, true, true, true⟩).2 ∧
    (closeV1 (fun st => decide (st = TDStep.releaseWriter))
        ⟨false, true, true, true, true⟩).1.wsOpen = true ∧
    (closeV1 (fun st => decide (st = TDStep.releaseWriter))
        ⟨false, true, true, true, true⟩).1.closed = true := by decide

/-- **C6, amended.**  Teardown is idempotent in every variant: it is
guarded by a check-and-set `closed` flag, a call on a closed state
changes nothing and attempts no step, and after any first call the
flag is set, so a second call (any failure pattern) is a no-op.  In
V2/V3/V4's `cleanup` each release step is additionally wrapped in its
own try/ignore block: the attempted steps do not depend on which
releases fail, and every held resource is attempted — the inbound
channel closed only when still open.  (V1's `close` lacks the per-step
guards; see the counterexample.) -/
theorem c6_teardown (f g : TDStep → Bool) (t : TDState) :
    (t.closed = true → cleanupV4 f t = (t, []) ∧ closeV1 f t = (t, [])) ∧
    (cleanupV4 f t).1.closed = true ∧
    (closeV1 f t).1.closed = true ∧
    cleanupV4 g (cleanupV4 f t).1 = ((cleanupV4 f t).1, []) ∧
    closeV1 g (closeV1 f t).1 = ((closeV1 f t).1, []) ∧
    (cleanupV4 f t).2 = (cleanupV4 g t).2 ∧
    (t.closed = false →
      (t.hasW = true → TDStep.releaseWriter ∈ (cleanupV4 f t).2) ∧
      (t.hasR = true → TDStep.releaseReader ∈ (cleanupV4 f t).2) ∧
      (t.hasSock = true → TDStep.closeSocket ∈ (cleanupV4 f t).2) ∧
      ((TDStep.closeWS ∈ (cleanupV4 f t).2) ↔ t.wsOpen = true)) := by
  have hL1c : ∀ (f : TDStep → Bool) (t : TDState), t.closed = true →
      cleanupV4 f t = (t, []) := by
    intro f t h; simp [cleanupV4, h]
  have hL1v : ∀ (f : TDStep → Bool) (t : TDState), t.closed = true →
      closeV1 f t = (t, []) := by
    intro f t h; simp [closeV1, h]
  have hL2 : ∀ (f : TDStep → Bool) (t : TDState),
      (closeV1 f t).1.closed = true := by
    intro f t
    by_cases h : t.closed = true
    · rw [hL1v f t h]; exact h
    · unfold closeV1
      rw [if_neg h]
      dsimp only
      split_ifs <;> rfl
  have hL3 : ∀ (f : TDStep → Bool) (t : TDState),
      (cleanupV4 f t).1.closed = true := by
    intro f t
    by_cases h : t.closed = true
    · rw [hL1c f t h]; exact h
    · simp [cleanupV4, h]
  refine ⟨fun h => ⟨hL1c f t h, hL1v f t h⟩, hL3 f t, hL2 f t,
    hL1c g _ (hL3 f t), hL1v g _ (hL2 f t), rfl, fun h => ?_⟩
  obtain ⟨c, w, r, sk, ws⟩ := t
  cases c
  · cases w <;> cases r <;> cases sk <;> cases ws <;> simp [cleanupV4]
  · exact absurd h (by simp)

/-- **C6, witness.**  A second teardown on an already-closed state is a
no-op, and on a fresh state the socket-close step is attempted even
when every release throws. -/
theorem c6_witness :
    cleanupV4 (fun _ => true) ⟨true, true, true, true, true⟩
      = (⟨true, true, true, true, true⟩, []) ∧
    TDStep.closeSocket ∈
      (cleanupV4 (fun _ => true) ⟨false, true, true, true, true⟩).2 := by
  refine ⟨((c6_teardown (fun _ => true) (fun _ => true)
      ⟨true, true, true, true, true⟩).1 rfl).1, ?_⟩
  exact ((c6_teardown (fun _ => true) (fun _ => true)
      ⟨false, true, true, true, true⟩).2.2.2.2.2.2 rfl).2.2.1 rfl

/-- Is this frame the `CLOSE` text frame? -/
def isCloseFrame : WsOut → Bool
  | WsOut.text s => decide (s = codes "CLOSE")
  | WsOut.bin _ => false

/-- V4's pump sends at most one `CLOSE` frame on any trace. -/
lemma pumpV4_close_count (tr : PumpTrace) :
    ((pumpV4 tr).1.filter isCloseFrame).length ≤ 1 := by
  induction tr with
  | nil => simp [pumpV4]
  | cons hd tl ih =>
    obtain ⟨res, w⟩ := hd
    cases res with
    | done => cases w <;> simp [pumpV4, isCloseFrame]
    | chunk bb =>
      by_cases hbb : bb.length > 0
      · cases w
        · simp [pumpV4, hbb]
        · simpa [pumpV4, hbb, isCloseFrame] using ih
      · simpa [pumpV4, hbb] using ih

/-- **C7, counterexample.**  V3's pump (lines 333–342) breaks out of
the loop at a zero-length chunk instead of skipping it: on the read
sequence ⟨empty chunk, then the byte 5⟩ with the inbound channel open,
V3 forwards nothing and stops, where the claim requires the empty chunk
to be skipped and `[5]` forwarded (as V4's pump indeed does). -/
theorem c7_counterexample :
    pumpV3 [(ReadRes.chunk [], true), (ReadRes.chunk [5], true)] = ([], false) ∧
    pumpV4 [(ReadRes.chunk [], true), (ReadRes.chunk [5], true)]
      = ([WsOut.bin [5]], false) ∧
    (pumpV3 [(ReadRes.chunk [], true), (ReadRes.chunk [5], true)]).1
      ≠ (pumpV4 [(ReadRes.chunk [], true), (ReadRes.chunk [5], true)]).1 := by
  decide

/-- **C7, amended.**  The claim holds of V4's pump
(`pumpRemoteToWebSocket`, lines 501–540): end-of-stream with the
inbound channel open sends exactly one `CLOSE` frame and triggers
teardown (and at most one `CLOSE` is ever sent on any trace); a
nonempty chunk with the inbound channel closed stops the loop without
error or teardown; a nonempty chunk with the channel open is forwarded
as a binary frame and the loop continues; a zero-length chunk is
skipped.  (V3's pump instead terminates at a zero-length chunk, and
V1's pump forwards zero-length chunks and keeps looping when the
inbound channel is closed.) -/
theorem c7_pump (b : List Nat) (w : Bool) (rest : PumpTrace) (hb : b ≠ []) :
    pumpV4 ((ReadRes.done, true) :: rest) = ([WsOut.text (codes "CLOSE")], true) ∧
    pumpV4 ((ReadRes.chunk b, false) :: rest) = ([], false) ∧
    pumpV4 ((ReadRes.chunk b, true) :: rest)
      = (WsOut.bin b :: (pumpV4 rest).1, (pumpV4 rest).2) ∧
    pumpV4 ((ReadRes.chunk [], w) :: rest) = pumpV4 rest ∧
    ∀ tr : PumpTrace, ((pumpV4 tr).1.filter isCloseFrame).length ≤ 1 := by
  have hlen : b.length > 0 := List.length_pos.mpr hb
  exact ⟨rfl, by simp [pumpV4, hlen], by simp [pumpV4, hlen],
    by simp [pumpV4], pumpV4_close_count⟩

/-- **C7, witness.**  A nonempty chunk read while the inbound channel
is closed stops the pump without teardown. -/
theorem c7_witness :
    pumpV4 [(ReadRes.chunk [7], false)] = ([], false) :=
  (c7_pump [7] true [] (by decide)).2.1

/-- **C8, counterexample.**  No variant rejects a second `CONNECT`
while already relaying: in V1, processing `CONNECT:h:1|` twice (both
dials succeeding) overwrites `rSock` without closing the first socket
and calls `pump()` again — afterwards two outbound sockets are open
and two pump loops have been started for the one session, where the
claim allows at most one of each. -/
theorem c8_counterexample :
    (stepV1 true (stepV1 true ⟨false, false, [], [], 0, 0⟩
        (Msg.str (codes "CONNECT:h:1|")))
        (Msg.str (codes "CONNECT:h:1|"))).socks = 2 ∧
    (stepV1 true (stepV1 true ⟨false, false, [], [], 0, 0⟩
        (Msg.str (codes "CONNECT:h:1|")))
        (Msg.str (codes "CONNECT:h:1|"))).pumpStarts = 2 := by decide

/-- **C8, amended.**  V4's pump is guarded by the `isReading` flag, so
the relay pump never runs concurrently with itself: entering
`pumpRemoteToWebSocket` while a prior instance is in progress performs
no read, sends nothing, triggers no teardown and leaves the flag
unchanged.  The at-most-one-outbound-channel half of the claim,
however, holds only while at most one `CONNECT` succeeds per session:
a second `CONNECT` overwrites the outbound handle without closing the
previous socket in every variant (see the counterexample). -/
theorem c8_pump_guard (trace : PumpTrace) :
    pumpGuardedV4 true trace = ([], false, true) := rfl

/-- **C9.**  Inbound `DATA:`/binary frames are applied to the outbound
channel in arrival order: processing any list of such frames (V1
handler, each write awaited before the next frame is handled, per the
per-session serialized dispatch) appends exactly the concatenation of
their encoded payloads, in order, to the bytes written — no
interleaving or reordering — and keeps the writer. -/
theorem c9_write_order (connOk : Bool) (s : SessV1)
    (fs : List (JStr ⊕ List Nat)) (hw : s.rW = true) :
    ((fs.map dataMsg).foldl (stepV1 connOk) s).written
      = s.written ++ (fs.map dataBytes).flatten ∧
    ((fs.map dataMsg).foldl (stepV1 connOk) s).rW = true := by
  induction fs generalizing s with
  | nil => simp [hw]
  | cons f tl ih =>
    rcases f with p | b
    · have hcn : startsWithL (codes "DATA:" ++ p) (codes "CONNECT:") = false := rfl
      have hdt : startsWithL (codes "DATA:" ++ p) (codes "DATA:") = true := rfl
      have hdrop : (codes "DATA:" ++ p).drop 5 = p := rfl
      have hstep : stepV1 connOk s (dataMsg (Sum.inl p))
          = { s with written := s.written ++ str2b p } := by
        simp [dataMsg, stepV1, hcn, hdt, hdrop, hw]
      have := ih { s with written := s.written ++ str2b p } hw
      simp only [List.map_cons, List.foldl_cons, hstep]
      rw [this.1]
      exact ⟨by simp [dataBytes], this.2⟩
    · have hstep : stepV1 connOk s (dataMsg (Sum.inr b))
          = { s with written := s.written ++ b } := by
        simp [dataMsg, stepV1, hw]
      have := ih { s with written := s.written ++ b } hw
      simp only [List.map_cons, List.foldl_cons, hstep]
      rw [this.1]
      exact ⟨by simp [dataBytes], this.2⟩

/-- **C9, witness.**  A `DATA:AB` frame followed by a binary `[1, 2]`
frame writes `A`, `B`, 1, 2 — in that order. -/
theorem c9_witness :
    (([Sum.inl (codes "AB"), Sum.inr [1, 2]].map dataMsg).foldl (stepV1 true)
        ⟨true, false, [], [], 1, 1⟩).written = [65, 66, 1, 2] := by
  have h := (c9_write_order true ⟨true, false, [], [], 1, 1⟩
      [Sum.inl (codes "AB"), Sum.inr [1, 2]] rfl).1
  rw [h]; decide

/-- **C10.**  A `DATA:` text frame or a binary frame arriving before
any outbound channel is established (no writer held) is silently
discarded in V1 and V4 alike: the session state — bytes written,
frames sent, `closed` flag, sockets, pump count — is exactly
unchanged. -/
theorem c10_no_writer_discard (connOk : Bool) (s1 : SessV1) (s4 : SessV4)
    (p : JStr) (b : List Nat) (h1 : s1.rW = false) (h4 : s4.rW = false) :
    stepV1 connOk s1 (Msg.str (codes "DATA:" ++ p)) = s1 ∧
    stepV1 connOk s1 (Msg.bin b) = s1 ∧
    stepV4 connOk s4 (Msg.str (codes "DATA:" ++ p)) = s4 ∧
    stepV4 connOk s4 (Msg.bin b) = s4 := by
  have hcn : startsWithL (codes "DATA:" ++ p) (codes "CONNECT:") = false := rfl
  have hdt : startsWithL (codes "DATA:" ++ p) (codes "DATA:") = true := rfl
  refine ⟨by simp [stepV1, hcn, hdt, h1], by simp [stepV1, h1], ?_, ?_⟩
  · by_cases hc : s4.closed = true <;> simp [stepV4, hcn, hdt, h4, hc]
  · by_cases hc : s4.closed = true <;> simp [stepV4, h4, hc]

/-- **C10, witness.**  On fresh sessions, `DATA:hi` and a binary
`[9]` frame leave the state untouched. -/
theorem c10_witness :
    stepV1 true ⟨false, false, [], [], 0, 0⟩
        (Msg.str (codes "DATA:" ++ codes "hi")) = ⟨false, false, [], [], 0, 0⟩ ∧
    stepV4 true ⟨false, false, [], [], 0, 0, false⟩ (Msg.bin [9])
      = ⟨false, false, [], [], 0, 0, false⟩ := by
  have h := c10_no_writer_discard true ⟨false, false, [], [], 0, 0⟩
      ⟨false, false, [], [], 0, 0, false⟩ (codes "hi") [9] rfl rfl
  exact ⟨h.1, h.2.2.2⟩

end EchWorkers
